import Mathlib

/-!
Verification development for the Internship Verification & Matching Engine
(backend/app/services/verification_service.py, matching_service.py,
calendar_service.py).

The Python services are embedded shallowly:

* Python ints are `ℤ` (or `ℕ` for values that are provably nonnegative,
  such as list lengths).
* Python floats are modelled exactly: an IEEE-754 binary64 value is a
  dyadic rational, represented here by the structure `Fp` (an integer
  mantissa times a power of two).  Every arithmetic step of the source
  (`/`, `*`, `+`, `float(...)` parsing, `int(...)` truncation) is a
  correctly rounded operation (round to nearest, ties to even, 53-bit
  mantissa), mirrored by `flDiv`, `flMul`, `flAdd`, `round53` and
  `dtrunc`.  The exponent range is unbounded (no overflow/underflow),
  which agrees with binary64 on every input these services can see.
* Python strings are Lean `String`s; `str.lower`, `str.strip`,
  substring tests (`in`), `split`, `join` are re-implemented on the
  underlying character lists.  `str.lower`/`str.strip` are modelled on
  the ASCII range, which covers the fixed keyword tables of the source.
* Python `set` values built from normalized skill lists are modelled as
  deduplicated lists (`List.dedup`); only membership and cardinality of
  these sets are ever used by the source.
* `list.sort(key=...)` (Timsort, a stable sort) is modelled by a stable
  insertion sort, `sortOn` / `sortOnDesc`.
* Raised `ValueError`s are modelled with `Except String`.
* `datetime.now()` defaults are environmental and are not modelled: the
  embedded calendar functions take the current month as an argument,
  which is the case every claim speaks about.
-/

set_option maxRecDepth 1000000

/-! ## Exact model of IEEE-754 binary64 arithmetic -/

/-- Fuel-driven floor of the base-2 logarithm; `log2fuel n n` is
`⌊log₂ n⌋` for `n ≥ 1` (the fuel bound `n` dominates the number of
halving steps). -/
def log2fuel : ℕ → ℕ → ℕ
  | 0, _ => 0
  | fuel + 1, n => if 2 ≤ n then log2fuel fuel (n / 2) + 1 else 0

/-- Floor of `log₂ n` (0 for `n = 0`). -/
def natLog2 (n : ℕ) : ℕ := log2fuel n n

/-- Round `p / q` to the nearest integer, ties to even (`q > 0`). -/
def rheDiv (p q : ℕ) : ℕ :=
  let n := p / q
  let r := p % q
  if q < 2 * r then n + 1
  else if 2 * r < q then n
  else if n % 2 = 0 then n else n + 1

/-- A binary64 value: the dyadic rational `m * 2 ^ e`. -/
structure Fp where
  m : ℤ
  e : ℤ
  deriving DecidableEq, Repr

/-- Floor of `log₂ (a / b)` for `a, b ≥ 1`: the unique `e` with
`2 ^ e ≤ a / b < 2 ^ (e + 1)`. -/
def floorLog2Q (a b : ℕ) : ℤ :=
  let d : ℤ := (natLog2 a : ℤ) - (natLog2 b : ℤ)
  let ge : Bool :=
    if 0 ≤ d then decide (b * 2 ^ d.toNat ≤ a) else decide (b ≤ a * 2 ^ (-d).toNat)
  if ge then d else d - 1

/-- Correctly rounded binary64 quotient `a / b` of two nonnegative
integers (Python's true division of ints, and `float(...)` applied to a
decimal literal `a / 10 ^ k`).  The degenerate `b = 0` case never occurs
in the embedded code paths. -/
def flDiv (a b : ℕ) : Fp :=
  if a = 0 ∨ b = 0 then ⟨0, 0⟩
  else
    let e := floorLog2Q a b
    let m := if e ≤ 52 then rheDiv (a * 2 ^ (52 - e).toNat) b
             else rheDiv a (b * 2 ^ (e - 52).toNat)
    ⟨m, e - 52⟩

/-- Round an exact dyadic rational `m * 2 ^ e` to 53 significant bits
(round to nearest, ties to even). -/
def round53 (m : ℤ) (e : ℤ) : Fp :=
  if m = 0 then ⟨0, 0⟩
  else
    let n := m.natAbs
    let k := natLog2 n
    if k ≤ 52 then ⟨m, e⟩
    else
      let s := k - 52
      let q := rheDiv n (2 ^ s)
      ⟨if m < 0 then -(q : ℤ) else (q : ℤ), e + s⟩

/-- Correctly rounded binary64 product. -/
def flMul (x y : Fp) : Fp := round53 (x.m * y.m) (x.e + y.e)

/-- Correctly rounded binary64 sum. -/
def flAdd (x y : Fp) : Fp :=
  if x.e ≤ y.e then round53 (x.m + y.m * 2 ^ (y.e - x.e).toNat) x.e
  else round53 (x.m * 2 ^ (x.e - y.e).toNat + y.m) y.e

/-- Correctly rounded product of a binary64 value with a nonnegative
integer (an exactly representable Python int literal such as 100 or
1000). -/
def flIntMul (x : Fp) (n : ℕ) : Fp := round53 (x.m * n) x.e

/-- Python `int(...)` applied to a float: truncation toward zero. -/
def dtrunc (x : Fp) : ℤ :=
  if 0 ≤ x.e then x.m * 2 ^ x.e.toNat
  else if 0 ≤ x.m then ((x.m.toNat / 2 ^ (-x.e).toNat : ℕ) : ℤ)
  else -((x.m.natAbs / 2 ^ (-x.e).toNat : ℕ) : ℤ)

/-- Comparison `x > n` between a binary64 value and a nonnegative
integer. -/
def fpGtNat (x : Fp) (n : ℕ) : Bool :=
  if 0 ≤ x.e then decide ((n : ℤ) < x.m * 2 ^ x.e.toNat)
  else decide ((n : ℤ) * 2 ^ (-x.e).toNat < x.m)

/-- Round a nonnegative binary64 value to the nearest integer, ties to
even (the rounding used by Python's format spec `.0f`). -/
def fpRound0 (x : Fp) : ℕ :=
  if 0 ≤ x.e then (x.m * 2 ^ x.e.toNat).toNat
  else rheDiv x.m.toNat (2 ^ (-x.e).toNat)

/-- The binary64 value of the Python literal `0.7`. -/
def c07 : Fp := flDiv 7 10

/-- The binary64 value of the Python literal `0.3`. -/
def c03 : Fp := flDiv 3 10

/-! ## Python string primitives on character lists -/

/-- Python `str.lower` (ASCII range). -/
def lowerStr (s : String) : String := ⟨s.data.map Char.toLower⟩

/-- The whitespace class of Python's `str.strip` and of the regex class
`\s` (ASCII range: space, tab, newline, vertical tab, form feed,
carriage return). -/
def pyIsSpace (c : Char) : Bool :=
  c = ' ' ∨ c = '\t' ∨ c = '\n' ∨ c = '\x0b' ∨ c = '\x0c' ∨ c = '\r'

/-- Python `str.strip()`. -/
def trimStr (s : String) : String :=
  ⟨((s.data.dropWhile pyIsSpace).reverse.dropWhile pyIsSpace).reverse⟩

/-- Skill normalization of the source: `skill.lower().strip()`. -/
def normalizeSkill (skill : String) : String := trimStr (lowerStr skill)

/-- Python substring test `needle in hay` on character lists. -/
def isSubList (needle : List Char) : List Char → Bool
  | [] => needle.isEmpty
  | c :: t => needle.isPrefixOf (c :: t) || isSubList needle t

/-- Python substring test `needle in hay` on strings. -/
def strHas (hay needle : String) : Bool := isSubList needle.data hay.data

/-- Python `str.split(sep)` for a one-character separator, on character
lists (keeps empty fragments, as Python does). -/
def splitCh (c : Char) : List Char → List (List Char)
  | [] => [[]]
  | x :: t =>
    if x = c then [] :: splitCh c t
    else
      match splitCh c t with
      | [] => [[x]]
      | g :: gs => (x :: g) :: gs

/-- Python `domain.split('.')`. -/
def splitDot (s : String) : List String := (splitCh '.' s.data).map List.asString

/-- Python `' '.join(parts)`. -/
def joinSpace : List String → String
  | [] => ""
  | [x] => x
  | x :: rest => x ++ " " ++ joinSpace rest

/-- The regex substitution `re.sub(r'[^a-z0-9]', '', s)`. -/
def filterAlnum (s : String) : String :=
  ⟨s.data.filter fun c => ('a' ≤ c && c ≤ 'z') || ('0' ≤ c && c ≤ '9')⟩

/-- Python `str.capitalize()` as used on the difficulty words of the
source (first character upper-cased, rest unchanged — the rest is
already lower case there). -/
def capitalizeStr (s : String) : String :=
  match s.data with
  | [] => ""
  | c :: t => ⟨c.toUpper :: t⟩

/-- Decimal digits of a nonnegative integer (most significant first). -/
def digitsFuel : ℕ → ℕ → List Char
  | 0, _ => []
  | _ + 1, 0 => []
  | fuel + 1, n => digitsFuel fuel (n / 10) ++ [Char.ofNat (48 + n % 10)]

/-- Decimal rendering of a nonnegative integer. -/
def natDigits (n : ℕ) : List Char := if n = 0 then ['0'] else digitsFuel n n

/-- Helper of `commaGroup`: walk the digits, inserting a comma before
every later group of three. -/
def commaGroupGo : List Char → List Char
  | [] => []
  | a :: t =>
    if t.length < 3 then a :: t
    else a :: (if t.length % 3 = 0 then ',' :: commaGroupGo t else commaGroupGo t)

/-- Group a digit string with commas every three digits from the right
(Python's format spec `,`). -/
def commaGroup (ds : List Char) : List Char := commaGroupGo ds

/-- Python `f"{v:,.0f}"` for a nonnegative float. -/
def fmtComma0f (v : Fp) : String := ⟨commaGroup (natDigits (fpRound0 v))⟩

/-- Numeric value of a list of decimal digit characters. -/
def natOfDigits (ds : List Char) : ℕ :=
  ds.foldl (fun acc c => 10 * acc + (c.toNat - 48)) 0

/-! ## Stable sorting by integer key

Python's `list.sort(key=...)` is a stable sort; its observable behavior
is fully captured by a stable insertion sort.  `list.sort(key=...,
reverse=True)` is the same stable sort on the negated key (equal-key
elements keep their input order in both directions, as CPython
documents). -/

/-- One step of stable insertion sort, ascending by `k`: `x` is placed
before the first element whose key is not smaller, so it stays before
every equal-key element that followed it in the input. -/
def insOn {α : Type} (k : α → ℤ) (x : α) : List α → List α
  | [] => [x]
  | y :: ys => if k y < k x then y :: insOn k x ys else x :: y :: ys

/-- Stable ascending sort by the integer key `k`. -/
def sortOn {α : Type} (k : α → ℤ) : List α → List α
  | [] => []
  | x :: xs => insOn k x (sortOn k xs)

theorem insOn_perm {α : Type} (k : α → ℤ) (x : α) (l : List α) :
    (insOn k x l).Perm (x :: l) := by
  induction l with
  | nil => simp [insOn]
  | cons y ys ih =>
    simp only [insOn]
    split
    · exact (ih.cons y).trans (List.Perm.swap x y ys)
    · exact List.Perm.refl _

theorem sortOn_perm {α : Type} (k : α → ℤ) (l : List α) : (sortOn k l).Perm l := by
  induction l with
  | nil => exact List.Perm.refl _
  | cons x xs ih => exact (insOn_perm k x (sortOn k xs)).trans (ih.cons x)

theorem insOn_pairwise {α : Type} (k : α → ℤ) (x : α) {l : List α}
    (h : l.Pairwise fun a b => k a ≤ k b) :
    (insOn k x l).Pairwise fun a b => k a ≤ k b := by
  induction l with
  | nil => simp [insOn]
  | cons y ys ih =>
    rcases List.pairwise_cons.mp h with ⟨hy, hys⟩
    simp only [insOn]
    by_cases hlt : k y < k x
    · rw [if_pos hlt]
      refine List.pairwise_cons.mpr ⟨?_, ih hys⟩
      intro b hb
      rcases List.mem_cons.mp ((insOn_perm k x ys).mem_iff.mp hb) with rfl | hb
      · omega
      · exact hy _ hb
    · rw [if_neg hlt]
      refine List.pairwise_cons.mpr ⟨?_, h⟩
      intro b hb
      rcases List.mem_cons.mp hb with rfl | hb
      · omega
      · have := hy _ hb
        omega

theorem sortOn_pairwise {α : Type} (k : α → ℤ) (l : List α) :
    (sortOn k l).Pairwise fun a b => k a ≤ k b := by
  induction l with
  | nil => simp [sortOn]
  | cons x xs ih => exact insOn_pairwise k x ih

theorem insOn_filter_key {α : Type} (k : α → ℤ) (x : α) (l : List α) (v : ℤ) :
    (insOn k x l).filter (fun a => decide (k a = v)) =
      if k x = v then x :: l.filter (fun a => decide (k a = v))
      else l.filter (fun a => decide (k a = v)) := by
  induction l with
  | nil => by_cases hx : k x = v <;> simp [insOn, hx]
  | cons y ys ih =>
    simp only [insOn]
    by_cases hlt : k y < k x
    · rw [if_pos hlt]
      by_cases hx : k x = v
      · have hy : ¬ k y = v := by omega
        rw [if_pos hx]
        simp only [List.filter_cons, hy, decide_eq_true_eq, if_neg hy, ih, if_pos hx]
        simp [List.filter_cons, hy]
      · rw [if_neg hx]
        simp only [List.filter_cons, ih, if_neg hx]
    · rw [if_neg hlt]
      by_cases hx : k x = v <;>
        simp [List.filter_cons, hx]
  
/-- Stability of the sort: elements sharing any fixed key value appear
in the output in exactly their input order. -/
theorem sortOn_filter_key {α : Type} (k : α → ℤ) (l : List α) (v : ℤ) :
    (sortOn k l).filter (fun a => decide (k a = v)) =
      l.filter (fun a => decide (k a = v)) := by
  induction l with
  | nil => rfl
  | cons x xs ih =>
    simp only [sortOn]
    rw [insOn_filter_key]
    by_cases hx : k x = v <;> simp [List.filter_cons, hx, ih]

theorem insOn_front {α : Type} (k : α → ℤ) (x : α) (l : List α)
    (h : ∀ y ∈ l, ¬ k y < k x) : insOn k x l = x :: l := by
  cases l with
  | nil => rfl
  | cons y ys => simp [insOn, h y (by simp)]

theorem insOn_mid {α : Type} (k : α → ℤ) (x : α) (l1 l2 : List α)
    (h1 : ∀ y ∈ l1, k y < k x) (h2 : ∀ y ∈ l2, ¬ k y < k x) :
    insOn k x (l1 ++ l2) = l1 ++ x :: l2 := by
  induction l1 with
  | nil => simpa using insOn_front k x l2 h2
  | cons a t ih =>
    have ht : insOn k x (t ++ l2) = t ++ x :: l2 := ih fun y hy => h1 y (by simp [hy])
    simp only [List.cons_append, insOn, if_pos (h1 a (by simp)), List.append_eq] at ht ⊢
    rw [ht]

/-- A stable sort whose keys take only the two values 0 and 1 produces
the key-0 elements (in input order) followed by the key-1 elements (in
input order). -/
theorem sortOn_two_buckets {α : Type} (k : α → ℤ) (l : List α)
    (h : ∀ a ∈ l, k a = 0 ∨ k a = 1) :
    sortOn k l =
      l.filter (fun a => decide (k a = 0)) ++ l.filter (fun a => decide (k a = 1)) := by
  induction l with
  | nil => rfl
  | cons x xs ih =>
    have hxs : ∀ a ∈ xs, k a = 0 ∨ k a = 1 := fun a ha => h a (by simp [ha])
    have hx := h x (by simp)
    simp only [sortOn, ih hxs]
    rcases hx with hx | hx
    · rw [insOn_front k x _ ?_]
      · simp [List.filter_cons, hx]
      · intro y hy
        rcases List.mem_append.mp hy with hy | hy <;>
          rcases hxs y (List.mem_filter.mp hy).1 with h0 | h0 <;> omega
    · rw [insOn_mid k x _ _ ?_ ?_]
      · simp [List.filter_cons, hx]
      · intro y hy
        have := of_decide_eq_true (List.mem_filter.mp hy).2
        omega
      · intro y hy
        have := of_decide_eq_true (List.mem_filter.mp hy).2
        omega

/-- Boolean test that a list of integers is nondecreasing. -/
def nondecreasingB : List ℤ → Bool
  | [] => true
  | [_] => true
  | a :: b :: t => decide (a ≤ b) && nondecreasingB (b :: t)

/-! ## Data model (backend/app/models/internship.py, fields read by the
three engines) -/

/-- Enum `VerificationStatus` of the source. -/
inductive VerificationStatus
  | VERIFIED
  | USE_CAUTION
  | POTENTIAL_SCAM
  | PENDING
  deriving DecidableEq, Repr

/-- Enum `RedFlagSeverity` of the source. -/
inductive RedFlagSeverity
  | LOW
  | MEDIUM
  | HIGH
  deriving DecidableEq, Repr

/-- Model `RedFlag`. -/
structure RedFlag where
  type : String
  severity : RedFlagSeverity
  description : String
  deriving DecidableEq, Repr

/-- Model `VerificationSignals`. -/
structure VerificationSignals where
  official_domain : Bool
  known_platform : Bool
  company_verified : Bool
  deriving DecidableEq, Repr

/-- Model `InternshipListing`: the fields read by the verification and
matching engines.  `company_domain` and `platform` are optional in the
source. -/
structure InternshipListing where
  id : String
  title : String
  company : String
  company_domain : Option String
  platform : Option String
  stipend : String
  required_skills : List String
  preferred_skills : List String
  responsibilities : List String
  deriving DecidableEq, Repr

/-- Model `StudentProfile`: `skills` is the only field the matching
engine reads. -/
structure StudentProfile where
  skills : List String
  deriving DecidableEq, Repr

/-- Model `VerificationResult` (timestamps omitted: environmental). -/
structure VerificationResult where
  id : String
  internship_id : String
  status : VerificationStatus
  trust_score : ℤ
  verification_signals : VerificationSignals
  red_flags : List RedFlag
  verification_notes : String
  deriving DecidableEq, Repr

/-- The dictionary returned by `calculate_skill_match`. -/
structure SkillMatchOut where
  match_percentage : ℤ
  matching_skills : List String
  missing_skills : List String
  deriving DecidableEq, Repr

/-- Model `LearningPathItem`. -/
structure LearningPathItem where
  skill : String
  estimated_time : String
  difficulty : String
  resources : List String
  priority : String
  deriving DecidableEq, Repr

/-- One entry of the list returned by `rank_internships`. -/
structure RankedEntry where
  internship : InternshipListing
  match_percentage : ℤ
  matching_skills : List String
  missing_skills : List String
  deriving DecidableEq, Repr

/-! ## MatchingService (backend/app/services/matching_service.py)

Python `set` values built from normalized skill lists are modelled as
deduplicated lists; the source only uses membership and cardinality of
these sets, both of which are representation-independent. -/

/-- The fixed `LEARNING_RESOURCES` table, in insertion (= iteration)
order.  The `"default"` key is part of the dictionary in the source. -/
def LEARNING_RESOURCES : List (String × List String) := [
  ("python", ["Python Official Tutorial (python.org)",
    "Coursera: Python for Everybody", "Real Python Tutorials"]),
  ("java", ["Oracle Java Tutorials",
    "Coursera: Java Programming and Software Engineering", "Codecademy: Learn Java"]),
  ("javascript", ["MDN Web Docs: JavaScript Guide",
    "freeCodeCamp: JavaScript Algorithms", "Eloquent JavaScript (book)"]),
  ("c++", ["LearnCpp.com", "Coursera: C++ For C Programmers",
    "C++ Reference Documentation"]),
  ("c", ["Learn-C.org", "CS50: Introduction to Computer Science",
    "The C Programming Language (book)"]),
  ("react", ["React Official Documentation",
    "freeCodeCamp: Front End Development Libraries", "Scrimba: Learn React"]),
  ("angular", ["Angular Official Tutorial",
    "Udemy: Angular - The Complete Guide", "Angular University Courses"]),
  ("vue", ["Vue.js Official Guide", "Vue Mastery Courses",
    "freeCodeCamp: Vue.js Course"]),
  ("node.js", ["Node.js Official Guides",
    "freeCodeCamp: Back End Development", "The Net Ninja: Node.js Tutorial"]),
  ("django", ["Django Official Tutorial", "Django for Beginners (book)",
    "Coursera: Django for Everybody"]),
  ("flask", ["Flask Official Tutorial",
    "Miguel Grinberg's Flask Mega-Tutorial", "Real Python: Flask Tutorials"]),
  ("sql", ["SQLBolt Interactive Tutorial", "Khan Academy: Intro to SQL",
    "Mode Analytics: SQL Tutorial"]),
  ("mongodb", ["MongoDB University", "MongoDB Official Documentation",
    "freeCodeCamp: MongoDB Course"]),
  ("postgresql", ["PostgreSQL Official Tutorial", "PostgreSQL Exercises",
    "Udemy: The Complete PostgreSQL Bootcamp"]),
  ("machine learning", ["Coursera: Machine Learning by Andrew Ng",
    "fast.ai: Practical Deep Learning", "Google's Machine Learning Crash Course"]),
  ("data analysis", ["Coursera: Google Data Analytics Certificate",
    "DataCamp: Data Analyst Track", "Kaggle Learn: Data Analysis"]),
  ("pandas", ["Pandas Official Documentation", "Kaggle Learn: Pandas",
    "Real Python: Pandas Tutorials"]),
  ("numpy", ["NumPy Official Tutorial",
    "Coursera: Applied Data Science with Python", "DataCamp: Introduction to NumPy"]),
  ("aws", ["AWS Training and Certification",
    "A Cloud Guru: AWS Certified Solutions Architect",
    "freeCodeCamp: AWS Certified Cloud Practitioner"]),
  ("docker", ["Docker Official Get Started Guide", "Docker Mastery Course",
    "Play with Docker Classroom"]),
  ("kubernetes", ["Kubernetes Official Tutorial",
    "Kubernetes for Beginners (KodeKloud)", "CNCF Kubernetes Fundamentals"]),
  ("git", ["Git Official Documentation", "GitHub Learning Lab",
    "Atlassian Git Tutorial"]),
  ("rest api", ["RESTful API Design Tutorial", "Postman Learning Center",
    "freeCodeCamp: APIs for Beginners"]),
  ("graphql", ["GraphQL Official Tutorial", "How to GraphQL",
    "Apollo GraphQL Tutorials"]),
  ("default", ["Coursera: Search for relevant courses",
    "Udemy: Search for skill-specific courses", "YouTube: Search for tutorials",
    "Official documentation for the technology"])]

/-- The fixed `LEARNING_TIMES` table. -/
def LEARNING_TIMES : List (String × String) :=
  [("easy", "1-2 weeks"), ("medium", "3-4 weeks"), ("hard", "6-8 weeks")]

/-- The fixed `SKILL_DIFFICULTY` table. -/
def SKILL_DIFFICULTY : List (String × String) := [
  ("git", "easy"), ("html", "easy"), ("css", "easy"), ("sql", "easy"),
  ("python", "medium"), ("javascript", "medium"), ("react", "medium"),
  ("node.js", "medium"), ("django", "medium"), ("flask", "medium"),
  ("rest api", "medium"), ("mongodb", "medium"), ("postgresql", "medium"),
  ("machine learning", "hard"), ("data science", "hard"),
  ("kubernetes", "hard"), ("aws", "hard"), ("system design", "hard"),
  ("distributed systems", "hard")]

/-- Python dict lookup `table.get(key)` on an association list with
distinct keys. -/
def lookupTable {α : Type} (t : List (String × α)) (key : String) : Option α :=
  (t.find? fun p => p.1 == key).map (·.2)

/-- Method `_get_skill_difficulty`. -/
def _get_skill_difficulty (skill : String) : String :=
  (lookupTable SKILL_DIFFICULTY (normalizeSkill skill)).getD "medium"

/-- Method `_get_learning_resources`: exact lookup first, then the
partial-match scan over the table keys in iteration order, then the
default entry. -/
def _get_learning_resources (skill : String) : List String :=
  match lookupTable LEARNING_RESOURCES (normalizeSkill skill) with
  | some v => v
  | none =>
    match LEARNING_RESOURCES.find? (fun p =>
        decide (3 ≤ p.1.length) &&
        (isSubList p.1.data (normalizeSkill skill).data ||
          isSubList (normalizeSkill skill).data p.1.data) &&
        decide (3 ≤ min p.1.length (normalizeSkill skill).length)) with
    | some p => p.2
    | none => (lookupTable LEARNING_RESOURCES "default").getD []

/-- Method `_prioritize_skill`. -/
def _prioritize_skill (skill : String) (required_skills : List String) : String :=
  if (required_skills.map normalizeSkill).contains (normalizeSkill skill) then "High"
  else "Medium"

/-- Method `calculate_skill_match` (with `preferred_skills = []`
standing for Python's `None`, which the source treats identically). -/
def calculate_skill_match (user_skills required_skills preferred_skills : List String) :
    SkillMatchOut :=
  if required_skills = [] then ⟨100, [], []⟩
  else if user_skills = [] then ⟨0, [], required_skills⟩
  else
    let uN := (user_skills.map normalizeSkill).dedup
    let rN := (required_skills.map normalizeSkill).dedup
    let pN := (preferred_skills.map normalizeSkill).dedup
    let matching_required := rN.filter fun s => uN.contains s
    let missing_required := rN.filter fun s => ! uN.contains s
    let required_match_pct := flIntMul (flDiv matching_required.length rN.length) 100
    let matching_preferred := pN.filter fun s => uN.contains s
    let raw : ℤ :=
      if pN = [] then dtrunc required_match_pct
      else
        let preferred_match_pct := flIntMul (flDiv matching_preferred.length pN.length) 100
        dtrunc (flAdd (flMul required_match_pct c07) (flMul preferred_match_pct c03))
    let match_percentage := max 0 (min 100 raw)
    let all_matching := matching_required ++ matching_preferred
    { match_percentage := match_percentage
      matching_skills :=
        (required_skills ++ preferred_skills).filter fun s =>
          all_matching.contains (normalizeSkill s)
      missing_skills :=
        required_skills.filter fun s => missing_required.contains (normalizeSkill s) }

/-- One learning-path item, as built in the loop body of
`generate_learning_path`. -/
def learningItem (required_skills : List String) (skill : String) : LearningPathItem :=
  let difficulty := _get_skill_difficulty skill
  { skill := skill
    estimated_time := (lookupTable LEARNING_TIMES difficulty).getD "3-4 weeks"
    difficulty := capitalizeStr difficulty
    resources := _get_learning_resources skill
    priority := _prioritize_skill skill required_skills }

/-- The sort key `priority_order.get(x.priority, 3)` of
`generate_learning_path`. -/
def priorityOrderKey (p : String) : ℤ :=
  if p = "High" then 0 else if p = "Medium" then 1 else if p = "Low" then 2 else 3

/-- Method `generate_learning_path` (with `required_skills = []`
standing for Python's `None`). -/
def generate_learning_path (missing_skills required_skills : List String) :
    List LearningPathItem :=
  if missing_skills = [] then []
  else sortOn (fun it => priorityOrderKey it.priority)
    (missing_skills.map (learningItem required_skills))

/-- One ranked entry, as built in the loop body of `rank_internships`. -/
def rankedEntry (user_profile : StudentProfile) (i : InternshipListing) : RankedEntry :=
  let r := calculate_skill_match user_profile.skills i.required_skills i.preferred_skills
  ⟨i, r.match_percentage, r.matching_skills, r.missing_skills⟩

/-- Method `rank_internships`: per-listing skill match followed by a
stable descending sort on `match_percentage` (`reverse=True` on a
stable ascending sort is a stable sort on the negated key). -/
def rank_internships (user_profile : StudentProfile) (internships : List InternshipListing) :
    List RankedEntry :=
  if internships = [] then []
  else sortOn (fun e => -(e.match_percentage)) (internships.map (rankedEntry user_profile))

/-! ## VerificationService (backend/app/services/verification_service.py) -/

/-- Class constant `KNOWN_PLATFORMS`. -/
def KNOWN_PLATFORMS : List String :=
  ["internshala", "linkedin", "wellfound", "aicte", "nsdc",
   "company career page", "company careers", "naukri", "indeed", "glassdoor"]

/-- Class constant `NON_OFFICIAL_DOMAINS`. -/
def NON_OFFICIAL_DOMAINS : List String :=
  ["gmail.com", "yahoo.com", "hotmail.com", "outlook.com",
   "rediffmail.com", "ymail.com"]

/-- Class constant `REGISTRATION_FEE_KEYWORDS`. -/
def REGISTRATION_FEE_KEYWORDS : List String :=
  ["registration fee", "registration charge", "enrollment fee", "joining fee",
   "application fee", "processing fee", "security deposit", "refundable deposit",
   "pay to apply", "payment required"]

/-- Class constant `WHATSAPP_ONLY_KEYWORDS`. -/
def WHATSAPP_ONLY_KEYWORDS : List String :=
  ["whatsapp only", "contact on whatsapp", "whatsapp for details",
   "message on whatsapp", "whatsapp number", "dm on whatsapp"]

/-- Class constant `VAGUE_DESCRIPTION_KEYWORDS`. -/
def VAGUE_DESCRIPTION_KEYWORDS : List String :=
  ["various tasks", "general work", "miscellaneous duties", "as assigned",
   "other duties", "flexible role", "multiple responsibilities"]

/-- The alternatives of the suffix regex
`re.sub(r'\s+(pvt\.?|ltd\.?|inc\.?|corp\.?|llc|limited|private)$', '', s)`,
expanded (the optional dot variant first, as the greedy `\.?` prefers
it).  At most one alternative can end a given string, so the listed
order never matters. -/
def CORP_SUFFIX_TOKENS : List String :=
  ["pvt.", "pvt", "ltd.", "ltd", "inc.", "inc", "corp.", "corp",
   "llc", "limited", "private"]

/-- The suffix substitution above: remove one trailing corporate suffix
together with the whitespace run in front of it (the `$` anchor means
the regex can match at most once, at the end of the string). -/
def stripCorpSuffix (s : String) : String :=
  let rcs := s.data.reverse
  match CORP_SUFFIX_TOKENS.find? (fun t =>
      t.data.reverse.isPrefixOf rcs &&
      ((rcs.drop t.length).head?.elim false pyIsSpace)) with
  | some t => (((rcs.drop t.length).dropWhile pyIsSpace).reverse).asString
  | none => s

/-- The TLD set of `check_domain_authenticity`. -/
def TLDS : List String := ["com", "org", "net", "edu", "gov", "co", "in", "io", "ai"]

/-- Method `check_domain_authenticity`. -/
def check_domain_authenticity (company : String) (domain : Option String) : Bool :=
  match domain with
  | none => false
  | some d0 =>
    if d0 = "" then false
    else
      let d := trimStr (lowerStr d0)
      if d = "" then false
      else if NON_OFFICIAL_DOMAINS.contains d then false
      else
        let cn := filterAlnum (stripCorpSuffix (trimStr (lowerStr company)))
        (splitDot d).any fun part =>
          if TLDS.contains part then false
          else
            let pn := filterAlnum part
            isSubList cn.data pn.data || isSubList pn.data cn.data

/-- Method `check_platform_legitimacy`. -/
def check_platform_legitimacy (platform : Option String) : Bool :=
  match platform with
  | none => false
  | some p0 =>
    if p0 = "" then false
    else KNOWN_PLATFORMS.contains (trimStr (lowerStr p0))

/-- Greedy parse of the regex piece `(?:,\d+)*`: consume comma-digit
groups as long as a comma is immediately followed by a digit.  The fuel
is the length of the remaining input, which bounds the number of
groups. -/
def commaGroupsFuel : ℕ → List Char → List Char × List Char
  | 0, cs => ([], cs)
  | fuel + 1, cs =>
    match cs with
    | ',' :: rest =>
      let ds := rest.takeWhile Char.isDigit
      if ds = [] then ([], cs)
      else
        let p := commaGroupsFuel fuel (rest.dropWhile Char.isDigit)
        (ds ++ p.1, p.2)
    | _ => ([], cs)

/-- The capture group of
`re.search(r'₹?\s*(\d+(?:,\d+)*(?:\.\d+)?)\s*k?', s)`.  Because the
currency sign, the whitespace and the final `k` are all optional, the
leftmost match always captures the digit run starting at the first
digit of the string, extended greedily by comma groups and an optional
fraction part; the search fails exactly when the string has no digit.
Returns the integer digits (commas removed, as `replace(',', '')`
does), the fraction digits, and the input remainder after the
match. -/
def stipendRegexGroup (cs : List Char) : Option (List Char × List Char × List Char) :=
  let rest := cs.dropWhile fun c => ! c.isDigit
  if rest = [] then none
  else
    let ds := rest.takeWhile Char.isDigit
    let r1 := rest.dropWhile Char.isDigit
    let p := commaGroupsFuel r1.length r1
    let fp : List Char × List Char := match p.2 with
      | '.' :: fr => (fr.takeWhile Char.isDigit, fr.dropWhile Char.isDigit)
      | r => ([], r)
    some (ds ++ p.1, fp.1, if fp.1 = [] then p.2 else fp.2)

/-- Lines 238–243 of the source: extract the stipend number, convert it
with `float(...)` (correctly rounded decimal-to-binary64), and multiply
by 1000 when the letter `k` occurs anywhere in the (already lowercased)
stipend string. -/
def stipendValue (stipendLower : String) : Option Fp :=
  match stipendRegexGroup stipendLower.data with
  | none => none
  | some (ip, fds, _) =>
    let v := flDiv (natOfDigits ip * 10 ^ fds.length + natOfDigits fds) (10 ^ fds.length)
    some (if stipendLower.data.contains 'k' then flIntMul v 1000 else v)

/-- The combined lowercased text scanned for keywords (title, company,
stipend and joined responsibilities — the first three are already
lowercased before being combined, as in the source). -/
def combinedText (internship : InternshipListing) : String :=
  lowerStr (lowerStr internship.title ++ " " ++ lowerStr internship.company ++ " " ++
    lowerStr internship.stipend ++ " " ++ joinSpace internship.responsibilities)

/-- Check 1 of `detect_red_flags`: registration-fee keywords (the loop
breaks after the first hit, so at most one flag). -/
def regFlags (internship : InternshipListing) : List RedFlag :=
  if REGISTRATION_FEE_KEYWORDS.any (fun kw => strHas (combinedText internship) kw) then
    [⟨"registration_fee", .HIGH, "Asks for registration or enrollment fee"⟩]
  else []

/-- Check 2 of `detect_red_flags`: WhatsApp-only keywords. -/
def waFlags (internship : InternshipListing) : List RedFlag :=
  if WHATSAPP_ONLY_KEYWORDS.any (fun kw => strHas (combinedText internship) kw) then
    [⟨"whatsapp_only", .HIGH, "Uses WhatsApp as the only contact method"⟩]
  else []

/-- Check 3 of `detect_red_flags`: free-email company domain. -/
def emailFlags (internship : InternshipListing) : List RedFlag :=
  if internship.company_domain.getD "" ≠ "" ∧
      NON_OFFICIAL_DOMAINS.contains (lowerStr (internship.company_domain.getD "")) then
    [⟨"non_official_email", .HIGH, "Uses non-official email domain (Gmail, Yahoo, etc.)"⟩]
  else []

/-- Check 4 of `detect_red_flags`: unrealistic stipend (regex number
extraction, `k`-anywhere thousands multiplier, threshold 50000). -/
def stipendFlags (internship : InternshipListing) : List RedFlag :=
  match stipendValue (lowerStr internship.stipend) with
  | some v =>
    if fpGtNat v 50000 then
      [⟨"unrealistic_stipend", .MEDIUM,
        "Unrealistically high stipend (₹" ++ fmtComma0f v ++ ") for internship"⟩]
    else []
  | none => []

/-- Check 5 of `detect_red_flags`: vague or missing responsibilities. -/
def vagueFlags (internship : InternshipListing) : List RedFlag :=
  if internship.responsibilities = [] then
    [⟨"vague_description", .MEDIUM, "No job responsibilities specified"⟩]
  else
    if 2 ≤ (VAGUE_DESCRIPTION_KEYWORDS.filter fun kw =>
          strHas (lowerStr (joinSpace internship.responsibilities)) kw).length ∨
        (internship.responsibilities.length = 1 ∧
          (internship.responsibilities.headD "").length < 50) then
      [⟨"vague_description", .MEDIUM, "Job responsibilities are vague or poorly defined"⟩]
    else []

/-- Method `detect_red_flags`.  The five checks append their flags in
source order; each check contributes at most one flag (the keyword
loops `break` after the first hit).  The locals of the Python method
are referentially transparent and are written as the named functions
above. -/
def detect_red_flags (internship : InternshipListing) : List RedFlag :=
  regFlags internship ++ waFlags internship ++ emailFlags internship ++
    stipendFlags internship ++ vagueFlags internship

/-- The per-flag deduction of `calculate_trust_score` (the
high/medium/low `elif` chain). -/
def severityDelta (f : RedFlag) : ℤ :=
  match f.severity with
  | .HIGH => 20
  | .MEDIUM => 10
  | .LOW => 5

/-- Method `calculate_trust_score`: base 50, signal bonuses, per-flag
deductions, clamp to [0, 100]. -/
def calculate_trust_score (signals : VerificationSignals) (red_flags : List RedFlag) : ℤ :=
  let score : ℤ := 50
  let score := if signals.official_domain then score + 20 else score
  let score := if signals.known_platform then score + 20 else score
  let score := if signals.company_verified then score + 10 else score
  let score := red_flags.foldl (fun s f => s - severityDelta f) score
  max 0 (min 100 score)

/-- The trust-score-to-status classification inside `verify_internship`
(lines 379–384 of the source). -/
def classifyStatus (trust_score : ℤ) : VerificationStatus :=
  if 80 ≤ trust_score then .VERIFIED
  else if 50 ≤ trust_score then .USE_CAUTION
  else .POTENTIAL_SCAM

/-- Method `_generate_verification_notes`. -/
def _generate_verification_notes (signals : VerificationSignals)
    (red_flags : List RedFlag) (trust_score : ℤ) : String :=
  let notes : List String := []
  let notes := notes ++ (if signals.official_domain then ["✓ Official company domain verified"] else [])
  let notes := notes ++ (if signals.known_platform then ["✓ Listed on known platform"] else [])
  let notes := notes ++ (if signals.company_verified then ["✓ Company verified on external sources"] else [])
  let notes := notes ++
    (if red_flags ≠ [] then
      ("\n⚠ " ++ toString red_flags.length ++ " red flag(s) detected:") ::
        red_flags.map (fun f => "  - " ++ f.description)
     else [])
  let notes := notes ++
    [if 80 ≤ trust_score then "\n✅ This internship appears legitimate and safe to apply."
     else if 50 ≤ trust_score then "\n⚠️ Exercise caution. Verify details before applying."
     else "\n❌ High risk of fraud. Avoid this internship."]
  String.intercalate "\n" notes

/-- Method `verify_internship`: check the two computable signals, force
`company_verified = False` (external company verification is not
implemented), detect red flags, score, classify. -/
def verifySignals (internship : InternshipListing) : VerificationSignals :=
  ⟨check_domain_authenticity internship.company internship.company_domain,
   check_platform_legitimacy internship.platform,
   false⟩

/-- The trust score computed on the `verify_internship` path (the
`trust_score` local of the method). -/
def trustOf (internship : InternshipListing) : ℤ :=
  calculate_trust_score (verifySignals internship) (detect_red_flags internship)

/-- Method `verify_internship`, continued: result assembly.  The local
variables of the Python method are referentially transparent, so they
are the named functions above instead of let bindings. -/
def verify_internship (internship : InternshipListing) : VerificationResult :=
  { id := internship.id ++ "_verification"
    internship_id := internship.id
    status := classifyStatus (trustOf internship)
    trust_score := trustOf internship
    verification_signals := verifySignals internship
    red_flags := detect_red_flags internship
    verification_notes := _generate_verification_notes (verifySignals internship)
      (detect_red_flags internship) (trustOf internship) }

/-! ## CalendarService (backend/app/services/calendar_service.py) -/

/-- One entry of the `SEMESTER_MAPPING` class constant. -/
structure SemInfo where
  focus : String
  description : String
  recommendation : String
  apply_window : Option String
  internship_period : Option String
  apply_months : List ℤ
  internship_months : List ℤ
  deriving DecidableEq, Repr

/-- The `SEMESTER_MAPPING` dictionary (keys 1–8). -/
def SEMESTER_MAPPING (semester : ℤ) : Option SemInfo :=
  if semester = 1 then some
    ⟨"Skill Building",
     "Focus on building foundational skills and academic performance",
     "Too early for internships. Focus on coursework and skill development.",
     none, none, [], []⟩
  else if semester = 2 then some
    ⟨"Skill Building",
     "Continue skill development and explore areas of interest",
     "Too early for internships. Build projects and learn new technologies.",
     none, none, [], []⟩
  else if semester = 3 then some
    ⟨"Summer Internships",
     "Apply for summer internships to gain industry experience",
     "Apply for Summer Internships between January and March for May-July positions.",
     some "Jan-Mar", some "May-Jul", [1, 2, 3], [5, 6, 7]⟩
  else if semester = 4 then some
    ⟨"Summer Internships",
     "Prime time for summer internship applications",
     "Apply for Summer Internships between January and March for May-July positions.",
     some "Jan-Mar", some "May-Jul", [1, 2, 3], [5, 6, 7]⟩
  else if semester = 5 then some
    ⟨"Winter/Summer Internships",
     "Apply for winter internships or prepare for next summer",
     "Apply for Winter Internships between August and October for December-January positions.",
     some "Aug-Oct", some "Dec-Jan", [8, 9, 10], [12, 1]⟩
  else if semester = 6 then some
    ⟨"Winter/Summer Internships",
     "Continue applying for winter internships or summer opportunities",
     "Apply for Winter Internships between August and October for December-January positions.",
     some "Aug-Oct", some "Dec-Jan", [8, 9, 10], [12, 1]⟩
  else if semester = 7 then some
    ⟨"Final Year Internships",
     "Apply for final year internships and pre-placement opportunities",
     "Apply for Final Year Internships between July and September for January-April positions.",
     some "Jul-Sep", some "Jan-Apr", [7, 8, 9], [1, 2, 3, 4]⟩
  else if semester = 8 then some
    ⟨"Pre-Placement",
     "Focus on placement preparation and final projects",
     "Focus on placement preparation. Apply for short-term or flexible internships as needed.",
     some "Ongoing", some "Flexible",
     [1, 2, 3, 4, 5, 6, 7, 8, 9, 10, 11, 12],
     [1, 2, 3, 4, 5, 6, 7, 8, 9, 10, 11, 12]⟩
  else none

/-- One upcoming-deadline entry of `get_upcoming_deadlines`. -/
structure Deadline where
  type : String
  month : String
  month_number : ℤ
  description : String
  deriving DecidableEq, Repr

/-- The `month_names` display list, as a total indexing function
(index 0 is the empty placeholder of the source list; only indices
1–12 are reachable). -/
def monthName (n : ℤ) : String :=
  if n = 1 then "January" else if n = 2 then "February"
  else if n = 3 then "March" else if n = 4 then "April"
  else if n = 5 then "May" else if n = 6 then "June"
  else if n = 7 then "July" else if n = 8 then "August"
  else if n = 9 then "September" else if n = 10 then "October"
  else if n = 11 then "November" else if n = 12 then "December" else ""

/-- Python `min` on a list of ints (call sites guarantee nonemptiness;
`min([])` would raise). -/
def listMinZ : List ℤ → ℤ
  | [] => 0
  | x :: xs => xs.foldl min x

/-- Python `max` on a list of ints (call sites guarantee
nonemptiness). -/
def listMaxZ : List ℤ → ℤ
  | [] => 0
  | x :: xs => xs.foldl max x

/-- Method `_calculate_months_until_window`. -/
def _calculate_months_until_window (current_month : ℤ) (apply_months : List ℤ) : ℤ :=
  if apply_months = [] then 0
  else
    let future_months := apply_months.filter fun m => current_month < m
    if future_months ≠ [] then listMinZ future_months - current_month
    else (12 - current_month) + listMinZ apply_months

/-- The sort key of `get_upcoming_deadlines`: a month strictly earlier
than the current month is pushed to next year. -/
def deadlineWrapKey (current_month : ℤ) (d : Deadline) : ℤ :=
  if d.month_number ≥ current_month then d.month_number else d.month_number + 12

/-- The deadline-building body of `get_upcoming_deadlines` (everything
after its semester validation).  The two `if` conditions on the window
months are the tautological guards of the source (lines 230 and 239),
kept verbatim. -/
def deadlinesFor (semester current_month : ℤ) : List Deadline :=
  if semester = 1 ∨ semester = 2 then []
  else
    match SEMESTER_MAPPING semester with
    | none => []
    | some info =>
      let apply_months := info.apply_months
      let internship_months := info.internship_months
      let applyDls : List Deadline :=
        if apply_months ≠ [] then
          let fam := listMinZ apply_months
          let lam := listMaxZ apply_months
          (if fam ≥ current_month ∨ fam < current_month then
            [⟨"Application Window Opens", monthName fam, fam,
              "Start applying for " ++ lowerStr info.focus⟩]
           else []) ++
          (if lam ≥ current_month ∨ lam < current_month then
            [⟨"Application Window Closes", monthName lam, lam,
              "Last month to apply for " ++ lowerStr info.focus⟩]
           else [])
        else []
      let internDls : List Deadline :=
        if internship_months ≠ [] then
          let fim := listMinZ internship_months
          [⟨"Internship Starts", monthName fim, fim,
            "Expected start date for " ++ lowerStr info.focus⟩]
        else []
      sortOn (deadlineWrapKey current_month) (applyDls ++ internDls)

/-- Method `get_upcoming_deadlines` (current month supplied; the
`datetime.now()` default is environmental).  Only the semester is
validated here, exactly as in the source. -/
def get_upcoming_deadlines (semester current_month : ℤ) : Except String (List Deadline) :=
  if ¬ (1 ≤ semester ∧ semester ≤ 8) then
    .error ("Semester must be between 1 and 8, got " ++ toString semester)
  else .ok (deadlinesFor semester current_month)

/-- The calendar dictionary returned by `get_calendar_for_semester`. -/
structure Calendar where
  semester : ℤ
  focus : String
  description : String
  recommendation : String
  apply_window : Option String
  internship_period : Option String
  apply_months : List ℤ
  internship_months : List ℤ
  current_status : String
  upcoming_deadlines : List Deadline
  deriving DecidableEq, Repr

/-- The `current_status` resolution of `get_calendar_for_semester`
(lines 132–150 of the source). -/
def statusFor (semester current_month : ℤ) (info : SemInfo) : String :=
  if semester = 1 ∨ semester = 2 then "Focus on skill development"
  else if info.apply_months.contains current_month then
    "Application window is OPEN - Apply now!"
  else if info.internship_months.contains current_month then
    "Internship period - Focus on current internship or prepare for next cycle"
  else
    let months_until_window := _calculate_months_until_window current_month info.apply_months
    if months_until_window ≤ 2 then
      "Application window opens in " ++ toString months_until_window ++
        " month(s) - Start preparing!"
    else
      "Preparation phase - " ++ toString months_until_window ++
        " month(s) until application window"

/-- Method `get_calendar_for_semester` (current month supplied; the
`datetime.now()` default is environmental).  Both the semester and the
month are validated before any computation, exactly as in the
source. -/
def get_calendar_for_semester (semester current_month : ℤ) : Except String Calendar :=
  if ¬ (1 ≤ semester ∧ semester ≤ 8) then
    .error ("Semester must be between 1 and 8, got " ++ toString semester)
  else if ¬ (1 ≤ current_month ∧ current_month ≤ 12) then
    .error ("Month must be between 1 and 12, got " ++ toString current_month)
  else
    match SEMESTER_MAPPING semester with
    | none => .error "unreachable: every semester in 1..8 has a mapping entry"
    | some info =>
      .ok { semester := semester
            focus := info.focus
            description := info.description
            recommendation := info.recommendation
            apply_window := info.apply_window
            internship_period := info.internship_period
            apply_months := info.apply_months
            internship_months := info.internship_months
            current_status := statusFor semester current_month info
            upcoming_deadlines := deadlinesFor semester current_month }

/-- Whether an `Except` computation returned without raising. -/
def isOkB {ε α : Type} : Except ε α → Bool
  | .ok _ => true
  | .error _ => false

/-! ## Definitions modelled from the spec (for refinement comparisons) -/

/-- Modelled from the spec (§4.2 / claim C4): the match-percentage
formula as the spec writes it —
`floor(100 × (|matched_required|/|required|) × 0.7 +
100 × (|matched_preferred|/|preferred|) × 0.3)` in exact rational
arithmetic, and `floor(100 × |matched_required|/|required|)` when no
preferred skills are supplied.  This is the comparison point for the
code's float computation, not a translation of the code. -/
def specMatchPctN (mr r mp p : ℕ) : ℤ :=
  if p ≠ 0 then
    ⌊(100 : ℚ) * ((mr : ℚ) / (r : ℚ)) * (7 / 10) +
      (100 : ℚ) * ((mp : ℚ) / (p : ℚ)) * (3 / 10)⌋
  else ⌊(100 : ℚ) * ((mr : ℚ) / (r : ℚ))⌋

/-- Cardinality `|user ∩ required|` of normalized skill sets (written
exactly as the sets are computed in `calculate_skill_match`). -/
def matchedRequiredCard (user_skills required_skills : List String) : ℕ :=
  ((required_skills.map normalizeSkill).dedup.filter fun s =>
    ((user_skills.map normalizeSkill).dedup).contains s).length

/-- Cardinality `|required|` of the normalized required set. -/
def requiredCard (required_skills : List String) : ℕ :=
  (required_skills.map normalizeSkill).dedup.length

/-- Cardinality `|user ∩ preferred|` of normalized skill sets. -/
def matchedPreferredCard (user_skills preferred_skills : List String) : ℕ :=
  ((preferred_skills.map normalizeSkill).dedup.filter fun s =>
    ((user_skills.map normalizeSkill).dedup).contains s).length

/-- Cardinality `|preferred|` of the normalized preferred set. -/
def preferredCard (preferred_skills : List String) : ℕ :=
  (preferred_skills.map normalizeSkill).dedup.length

/-- The spec formula applied to the normalized-set cardinalities of the
given skill lists. -/
def specMatchPct (user_skills required_skills preferred_skills : List String) : ℤ :=
  specMatchPctN (matchedRequiredCard user_skills required_skills)
    (requiredCard required_skills)
    (matchedPreferredCard user_skills preferred_skills)
    (preferredCard preferred_skills)

/-- The code's float computation of the match percentage, as a function
of the four normalized-set cardinalities (before the defensive clamp):
each `*`, `/`, `+` is a correctly rounded binary64 operation and the
final `int(...)` truncates toward zero. -/
def codeMatchPctN (mr r mp p : ℕ) : ℤ :=
  if p ≠ 0 then
    dtrunc (flAdd (flMul (flIntMul (flDiv mr r) 100) c07)
      (flMul (flIntMul (flDiv mp p) 100) c03))
  else dtrunc (flIntMul (flDiv mr r) 100)

/-- Modelled from the spec (§4.1 / claim C5): the stipend value under
the spec's reading that a `k` must trail the extracted number (the
regex tail `\s*k?`) to multiply it by 1000 — rather than the code's
test for a `k` anywhere in the stipend string. -/
def specStipendValue (stipendLower : String) : Option Fp :=
  match stipendRegexGroup stipendLower.data with
  | none => none
  | some (ip, fds, rest) =>
    let v := flDiv (natOfDigits ip * 10 ^ fds.length + natOfDigits fds) (10 ^ fds.length)
    some (if (rest.dropWhile pyIsSpace).head? = some 'k' then flIntMul v 1000 else v)

/-! ## Helper lemmas on the trust score and the classifier -/

/-- Number of red flags of a given severity, as an integer. -/
def countSeverity (sev : RedFlagSeverity) (flags : List RedFlag) : ℤ :=
  ((flags.filter fun f => f.severity == sev).length : ℤ)

theorem countSeverity_nonneg (sev : RedFlagSeverity) (flags : List RedFlag) :
    0 ≤ countSeverity sev flags := Int.natCast_nonneg _

theorem foldl_severity (flags : List RedFlag) : ∀ s0 : ℤ,
    flags.foldl (fun s f => s - severityDelta f) s0 =
      s0 - 20 * countSeverity .HIGH flags - 10 * countSeverity .MEDIUM flags
        - 5 * countSeverity .LOW flags := by
  induction flags with
  | nil => intro s0; simp [countSeverity]
  | cons f fs ih =>
    intro s0
    simp only [List.foldl_cons, ih, countSeverity, List.filter_cons]
    rcases hf : f.severity <;>
      simp [hf, severityDelta, countSeverity] <;> push_cast <;> ring

/-- Closed form of `calculate_trust_score`: clamp of base, bonuses and
per-severity deductions. -/
theorem trustScore_closed (signals : VerificationSignals) (red_flags : List RedFlag) :
    calculate_trust_score signals red_flags =
      max 0 (min 100 (50 + (if signals.official_domain then (20 : ℤ) else 0)
        + (if signals.known_platform then (20 : ℤ) else 0)
        + (if signals.company_verified then (10 : ℤ) else 0)
        - 20 * countSeverity .HIGH red_flags
        - 10 * countSeverity .MEDIUM red_flags
        - 5 * countSeverity .LOW red_flags)) := by
  rcases signals with ⟨od, kp, cv⟩
  simp only [calculate_trust_score, foldl_severity]
  cases od <;> cases kp <;> cases cv <;> simp <;> ring_nf

theorem verify_trust_score_eq (i : InternshipListing) :
    (verify_internship i).trust_score = trustOf i := by
  unfold verify_internship
  rfl

theorem verify_status_eq (i : InternshipListing) :
    (verify_internship i).status = classifyStatus (trustOf i) := by
  unfold verify_internship
  rfl

theorem verify_signals_eq (i : InternshipListing) :
    (verify_internship i).verification_signals = verifySignals i := by
  unfold verify_internship
  rfl

theorem classifyStatus_verified_iff (t : ℤ) : classifyStatus t = .VERIFIED ↔ 80 ≤ t := by
  unfold classifyStatus
  split_ifs with h1 h2 <;> simp_all

theorem classifyStatus_caution_iff (t : ℤ) :
    classifyStatus t = .USE_CAUTION ↔ 50 ≤ t ∧ t < 80 := by
  unfold classifyStatus
  split_ifs with h1 h2 <;> simp_all <;> omega

theorem classifyStatus_scam_iff (t : ℤ) :
    classifyStatus t = .POTENTIAL_SCAM ↔ t < 50 := by
  unfold classifyStatus
  split_ifs with h1 h2 <;> simp_all <;> omega

/-! ## Claim C2 -/

/-- C2: for every `VerificationSignals` value and every list of red
flags, `calculate_trust_score` returns
`clamp(50 + 20·[official_domain] + 20·[known_platform] +
10·[company_verified] − 20·#HIGH − 10·#MEDIUM − 5·#LOW, 0, 100)`;
in particular all-false signals with no flags give 50, all-true signals
with no flags give 100, and all-true signals with exactly one HIGH flag
give 80. -/
theorem trust_score_clamped_formula :
    (∀ (signals : VerificationSignals) (red_flags : List RedFlag),
      calculate_trust_score signals red_flags =
        max 0 (min 100 (50 + (if signals.official_domain then (20 : ℤ) else 0)
          + (if signals.known_platform then (20 : ℤ) else 0)
          + (if signals.company_verified then (10 : ℤ) else 0)
          - 20 * countSeverity .HIGH red_flags
          - 10 * countSeverity .MEDIUM red_flags
          - 5 * countSeverity .LOW red_flags))) ∧
    calculate_trust_score ⟨false, false, false⟩ [] = 50 ∧
    calculate_trust_score ⟨true, true, true⟩ [] = 100 ∧
    calculate_trust_score ⟨true, true, true⟩
      [⟨"registration_fee", .HIGH, "Asks for registration or enrollment fee"⟩] = 80 :=
  ⟨trustScore_closed, by decide, by decide, by decide⟩

/-! ## Claim C3 -/

/-- C3: for every trust score in [0, 100] the derived verification
status is exactly one of three states — Verified iff the score is ≥ 80,
UseCaution iff it lies in [50, 80), PotentialScam iff it is < 50 — and
`verify_internship` derives its status by exactly this classifier. -/
theorem verification_status_trichotomy :
    (∀ t : ℤ, 0 ≤ t → t ≤ 100 →
      (classifyStatus t = .VERIFIED ↔ 80 ≤ t) ∧
      (classifyStatus t = .USE_CAUTION ↔ 50 ≤ t ∧ t < 80) ∧
      (classifyStatus t = .POTENTIAL_SCAM ↔ t < 50) ∧
      (classifyStatus t = .VERIFIED ∨ classifyStatus t = .USE_CAUTION ∨
        classifyStatus t = .POTENTIAL_SCAM)) ∧
    ∀ internship : InternshipListing,
      (verify_internship internship).status =
        classifyStatus (verify_internship internship).trust_score := by
  constructor
  · intro t h0 h100
    refine ⟨classifyStatus_verified_iff t, classifyStatus_caution_iff t,
      classifyStatus_scam_iff t, ?_⟩
    unfold classifyStatus
    split_ifs <;> simp
  · intro internship
    rw [verify_status_eq, verify_trust_score_eq]

/-- Witness for C3 at the boundary score 80. -/
theorem verification_status_trichotomy_witness :
    (classifyStatus 80 = .VERIFIED ↔ 80 ≤ (80 : ℤ)) ∧
    (classifyStatus 80 = .USE_CAUTION ↔ 50 ≤ (80 : ℤ) ∧ (80 : ℤ) < 80) ∧
    (classifyStatus 80 = .POTENTIAL_SCAM ↔ (80 : ℤ) < 50) ∧
    (classifyStatus 80 = .VERIFIED ∨ classifyStatus 80 = .USE_CAUTION ∨
      classifyStatus 80 = .POTENTIAL_SCAM) :=
  verification_status_trichotomy.1 80 (by decide) (by decide)

/-! ## Claim C10 -/

/-- C10: on the `verify_internship` path the `company_verified` signal
is always false, so the trust score never exceeds 90, and Verified
status requires both remaining signals. -/
theorem verify_trust_ceiling :
    ∀ internship : InternshipListing,
      (verify_internship internship).verification_signals.company_verified = false ∧
      (verify_internship internship).trust_score ≤ 90 ∧
      ((verify_internship internship).status = .VERIFIED →
        (verify_internship internship).verification_signals.official_domain = true ∧
        (verify_internship internship).verification_signals.known_platform = true) := by
  intro i
  have hH := countSeverity_nonneg .HIGH (detect_red_flags i)
  have hM := countSeverity_nonneg .MEDIUM (detect_red_flags i)
  have hL := countSeverity_nonneg .LOW (detect_red_flags i)
  have hts := verify_trust_score_eq i
  have hst := verify_status_eq i
  have hsig := verify_signals_eq i
  have hcv : (verifySignals i).company_verified = false := rfl
  refine ⟨by rw [hsig, hcv], ?_, ?_⟩
  · rw [hts, trustOf, trustScore_closed, hcv]
    cases hod : (verifySignals i).official_domain <;>
      cases hkp : (verifySignals i).known_platform <;> simp <;> omega
  · intro hv
    rw [hst, classifyStatus_verified_iff, trustOf, trustScore_closed, hcv] at hv
    rw [hsig]
    cases hod : (verifySignals i).official_domain <;>
      cases hkp : (verifySignals i).known_platform <;> simp_all <;> omega

/-- A concrete listing used to instantiate the universally quantified
claim theorems. -/
def demoListing : InternshipListing :=
  { id := "internship-123"
    title := "Software Engineering Intern"
    company := "TechCorp"
    company_domain := some "techcorp.com"
    platform := some "Internshala"
    stipend := "₹15,000/month"
    required_skills := ["Python", "Django", "REST API"]
    preferred_skills := ["React", "PostgreSQL"]
    responsibilities := ["Build APIs", "Write tests"] }

/-- Witness for C10 at a concrete listing. -/
theorem verify_trust_ceiling_witness :
    (verify_internship demoListing).verification_signals.company_verified = false ∧
    (verify_internship demoListing).trust_score ≤ 90 ∧
    ((verify_internship demoListing).status = .VERIFIED →
      (verify_internship demoListing).verification_signals.official_domain = true ∧
      (verify_internship demoListing).verification_signals.known_platform = true) :=
  verify_trust_ceiling demoListing

/-! ## Claim C6 -/

/-- C6: `get_calendar_for_semester` fails with a validation error —
returning no partial result — exactly when the semester is outside
[1, 8] or the supplied month is outside [1, 12] (so semesters 0 and 9
always raise); valid inputs always produce a calendar. -/
theorem calendar_validation_iff :
    ∀ semester current_month : ℤ,
      isOkB (get_calendar_for_semester semester current_month) = true ↔
        (1 ≤ semester ∧ semester ≤ 8 ∧ 1 ≤ current_month ∧ current_month ≤ 12) := by
  intro s m
  unfold get_calendar_for_semester
  by_cases hs : 1 ≤ s ∧ s ≤ 8
  · by_cases hm : 1 ≤ m ∧ m ≤ 12
    · rw [if_neg (not_not_intro hs), if_neg (not_not_intro hm)]
      obtain ⟨hs1, hs2⟩ := hs
      interval_cases s <;> simp [SEMESTER_MAPPING, isOkB] <;> omega
    · rw [if_neg (not_not_intro hs), if_pos hm]
      simp only [isOkB]
      constructor
      · intro h
        exact absurd h (by simp)
      · intro h
        exact absurd ⟨h.2.2.1, h.2.2.2⟩ hm
  · rw [if_pos hs]
    simp only [isOkB]
    constructor
    · intro h
      exact absurd h (by simp)
    · intro h
      exact absurd ⟨h.1, h.2.1⟩ hs

/-! ## Claim C9 -/

/-- The mapping entry of a semester (only semesters 1–8 have one; the
default is never reached in the claims below). -/
def semInfoOf (s : ℤ) : SemInfo := (SEMESTER_MAPPING s).getD ⟨"", "", "", none, none, [], []⟩

/-- The window-opens event of the claim: first apply month. -/
def opensEvent (s : ℤ) : Deadline :=
  ⟨"Application Window Opens", monthName (listMinZ (semInfoOf s).apply_months),
   listMinZ (semInfoOf s).apply_months,
   "Start applying for " ++ lowerStr (semInfoOf s).focus⟩

/-- The window-closes event of the claim: last apply month. -/
def closesEvent (s : ℤ) : Deadline :=
  ⟨"Application Window Closes", monthName (listMaxZ (semInfoOf s).apply_months),
   listMaxZ (semInfoOf s).apply_months,
   "Last month to apply for " ++ lowerStr (semInfoOf s).focus⟩

/-- The internship-starts event of the claim: first internship month. -/
def startsEvent (s : ℤ) : Deadline :=
  ⟨"Internship Starts", monthName (listMinZ (semInfoOf s).internship_months),
   listMinZ (semInfoOf s).internship_months,
   "Expected start date for " ++ lowerStr (semInfoOf s).focus⟩

deriving instance DecidableEq for Except

/-- C9: for every semester in [3, 8] and month in [1, 12],
`get_upcoming_deadlines` succeeds with exactly three events — window
opens at the first apply month, window closes at the last apply month,
internship starts at the first internship month, each carrying a month
name, numeric month and description — sorted by distance from the
current month with year wraparound (months strictly earlier than the
current month order as month + 12); semesters 1 and 2 give the empty
list. -/
theorem upcoming_deadlines_three_events :
    (∀ s ∈ Finset.Icc (3 : ℤ) 8, ∀ m ∈ Finset.Icc (1 : ℤ) 12,
      get_upcoming_deadlines s m = Except.ok (deadlinesFor s m) ∧
      (deadlinesFor s m).length = 3 ∧
      opensEvent s ∈ deadlinesFor s m ∧
      closesEvent s ∈ deadlinesFor s m ∧
      startsEvent s ∈ deadlinesFor s m ∧
      nondecreasingB ((deadlinesFor s m).map (deadlineWrapKey m)) = true) ∧
    (∀ s ∈ Finset.Icc (1 : ℤ) 2, ∀ m ∈ Finset.Icc (1 : ℤ) 12,
      get_upcoming_deadlines s m = Except.ok []) := by
  constructor <;> decide

/-- Witness for C9: semester 4, current month June. -/
theorem upcoming_deadlines_three_events_witness :
    (get_upcoming_deadlines 4 6 = Except.ok (deadlinesFor 4 6) ∧
      (deadlinesFor 4 6).length = 3 ∧
      opensEvent 4 ∈ deadlinesFor 4 6 ∧
      closesEvent 4 ∈ deadlinesFor 4 6 ∧
      startsEvent 4 ∈ deadlinesFor 4 6 ∧
      nondecreasingB ((deadlinesFor 4 6).map (deadlineWrapKey 6)) = true) ∧
    get_upcoming_deadlines 1 6 = Except.ok [] :=
  ⟨upcoming_deadlines_three_events.1 4 (by decide) 6 (by decide),
   upcoming_deadlines_three_events.2 1 (by decide) 6 (by decide)⟩

/-! ## Helper lemmas for the matching theorems -/

theorem filter_of_map {α β : Type} (f : α → β) (q : β → Bool) (l : List α) :
    (l.map f).filter q = (l.filter fun a => q (f a)).map f := by
  induction l with
  | nil => rfl
  | cons a t ih => by_cases h : q (f a) <;> simp [List.filter_cons, h, ih]

theorem lookupTable_mem {α : Type} {t : List (String × α)} {key : String} {v : α}
    (h : lookupTable t key = some v) : ∃ pr ∈ t, pr.2 = v := by
  unfold lookupTable at h
  cases hf : t.find? (fun p => p.1 == key) with
  | none => rw [hf] at h; simp at h
  | some pr =>
    rw [hf] at h
    simp at h
    exact ⟨pr, List.mem_of_find?_eq_some hf, h⟩

theorem learning_resources_values_nonempty :
    ∀ pr ∈ LEARNING_RESOURCES, pr.2 ≠ [] := by decide

/-- The resources list of `_get_learning_resources` is never empty:
every table entry is nonempty and so is the default list. -/
theorem get_learning_resources_ne_nil (skill : String) :
    _get_learning_resources skill ≠ [] := by
  unfold _get_learning_resources
  cases hf : lookupTable LEARNING_RESOURCES (normalizeSkill skill) with
  | some v =>
    obtain ⟨pr, hmem, hv⟩ := lookupTable_mem hf
    show v ≠ []
    exact hv ▸ learning_resources_values_nonempty pr hmem
  | none =>
    cases hp : LEARNING_RESOURCES.find? (fun p =>
        decide (3 ≤ p.1.length) &&
        (isSubList p.1.data (normalizeSkill skill).data ||
          isSubList (normalizeSkill skill).data p.1.data) &&
        decide (3 ≤ min p.1.length (normalizeSkill skill).length)) with
    | some pr =>
      show pr.2 ≠ []
      exact learning_resources_values_nonempty pr (List.mem_of_find?_eq_some hp)
    | none => decide

theorem learningItem_skill (required_skills : List String) (sk : String) :
    (learningItem required_skills sk).skill = sk := rfl

theorem learningItem_priority (required_skills : List String) (sk : String) :
    (learningItem required_skills sk).priority = _prioritize_skill sk required_skills := rfl

theorem learningItem_resources (required_skills : List String) (sk : String) :
    (learningItem required_skills sk).resources = _get_learning_resources sk := rfl

theorem prioritize_high_or_medium (sk : String) (required_skills : List String) :
    _prioritize_skill sk required_skills = "High" ∨
      _prioritize_skill sk required_skills = "Medium" := by
  unfold _prioritize_skill
  split <;> simp

/-! ## Claim C7 -/

/-- C7: `generate_learning_path` returns exactly one item per missing
skill; every item has a nonempty resources list; an item's priority is
High exactly when its skill is (case-insensitively, after
normalization) among the required skills and Medium otherwise; and the
output is the stable priority-sorted arrangement — the High items in
input order followed by the Medium items in input order (no Low
priority is ever produced, so High before Medium before Low holds). -/
theorem learning_path_shape :
    ∀ missing_skills required_skills : List String,
      ((generate_learning_path missing_skills required_skills).map (·.skill)).Perm
        missing_skills ∧
      (∀ it ∈ generate_learning_path missing_skills required_skills,
        it.resources ≠ []) ∧
      (∀ it ∈ generate_learning_path missing_skills required_skills,
        it.priority =
          if (required_skills.map normalizeSkill).contains (normalizeSkill it.skill)
          then "High" else "Medium") ∧
      generate_learning_path missing_skills required_skills =
        (missing_skills.map (learningItem required_skills)).filter
            (fun it => it.priority == "High") ++
          (missing_skills.map (learningItem required_skills)).filter
            (fun it => it.priority == "Medium") := by
  intro ms rs
  by_cases hms : ms = []
  · subst hms
    simp [generate_learning_path]
  · have hgen : generate_learning_path ms rs =
        sortOn (fun it => priorityOrderKey it.priority) (ms.map (learningItem rs)) := by
      unfold generate_learning_path
      rw [if_neg hms]
    have hkey : ∀ it ∈ ms.map (learningItem rs),
        priorityOrderKey it.priority = 0 ∨ priorityOrderKey it.priority = 1 := by
      intro it hit
      obtain ⟨sk, hsk, rfl⟩ := List.mem_map.mp hit
      rw [learningItem_priority]
      rcases prioritize_high_or_medium sk rs with h | h <;> rw [h]
      · left; decide
      · right; decide
    have hperm : (generate_learning_path ms rs).Perm (ms.map (learningItem rs)) := by
      rw [hgen]
      exact sortOn_perm _ _
    refine ⟨?_, ?_, ?_, ?_⟩
    · have hmm : (ms.map (learningItem rs)).map (·.skill) = ms := by
        rw [List.map_map]
        have hco : ((fun x : LearningPathItem => x.skill) ∘ learningItem rs) =
            fun sk => sk := rfl
        rw [hco]
        simp
      have h2 := hperm.map (·.skill)
      rw [hmm] at h2
      exact h2
    · intro it hit
      obtain ⟨sk, hsk, rfl⟩ := List.mem_map.mp (hperm.mem_iff.mp hit)
      rw [learningItem_resources]
      exact get_learning_resources_ne_nil sk
    · intro it hit
      obtain ⟨sk, hsk, rfl⟩ := List.mem_map.mp (hperm.mem_iff.mp hit)
      rw [learningItem_priority, learningItem_skill]
      rfl
    · rw [hgen, sortOn_two_buckets _ _ hkey]
      congr 1
      · refine List.filter_congr ?_
        intro it hit
        obtain ⟨sk, hsk, rfl⟩ := List.mem_map.mp hit
        rw [learningItem_priority]
        rcases prioritize_high_or_medium sk rs with h | h <;> rw [h] <;> decide
      · refine List.filter_congr ?_
        intro it hit
        obtain ⟨sk, hsk, rfl⟩ := List.mem_map.mp hit
        rw [learningItem_priority]
        rcases prioritize_high_or_medium sk rs with h | h <;> rw [h] <;> decide

/-- Witness for C7 on a concrete input: missing Django, React, AWS
against required Django. -/
theorem learning_path_shape_witness :
    ((generate_learning_path ["Django", "React", "AWS"] ["Django"]).map (·.skill)).Perm
      ["Django", "React", "AWS"] ∧
    (∀ it ∈ generate_learning_path ["Django", "React", "AWS"] ["Django"],
      it.resources ≠ []) ∧
    (∀ it ∈ generate_learning_path ["Django", "React", "AWS"] ["Django"],
      it.priority =
        if (["Django"].map normalizeSkill).contains (normalizeSkill it.skill)
        then "High" else "Medium") ∧
    generate_learning_path ["Django", "React", "AWS"] ["Django"] =
      (["Django", "React", "AWS"].map (learningItem ["Django"])).filter
          (fun it => it.priority == "High") ++
        (["Django", "React", "AWS"].map (learningItem ["Django"])).filter
          (fun it => it.priority == "Medium") :=
  learning_path_shape ["Django", "React", "AWS"] ["Django"]

/-! ## Claim C8 -/

theorem rank_internships_eq (user_profile : StudentProfile)
    (internships : List InternshipListing) :
    rank_internships user_profile internships =
      sortOn (fun e => -(e.match_percentage)) (internships.map (rankedEntry user_profile)) := by
  unfold rank_internships
  split
  · subst internships
    rfl
  · rfl

theorem rankedEntry_internship (user_profile : StudentProfile) (i : InternshipListing) :
    (rankedEntry user_profile i).internship = i := rfl

theorem rankedEntry_pct (user_profile : StudentProfile) (i : InternshipListing) :
    (rankedEntry user_profile i).match_percentage =
      (calculate_skill_match user_profile.skills i.required_skills
        i.preferred_skills).match_percentage := rfl

/-- C8: `rank_internships` returns every input listing exactly once,
sorted non-increasingly by `match_percentage`; the sort is stable, so
for every percentage value the listings attaining it appear in their
input order; and the result is deterministic — recomputing on identical
inputs gives an identical list. -/
theorem rank_internships_shape :
    ∀ (user_profile : StudentProfile) (internships : List InternshipListing),
      ((rank_internships user_profile internships).map (·.internship)).Perm internships ∧
      (rank_internships user_profile internships).Pairwise
        (fun a b => b.match_percentage ≤ a.match_percentage) ∧
      (∀ v : ℤ,
        ((rank_internships user_profile internships).filter
            (fun e => decide (e.match_percentage = v))).map (·.internship) =
          internships.filter (fun i =>
            decide ((calculate_skill_match user_profile.skills i.required_skills
              i.preferred_skills).match_percentage = v))) ∧
      rank_internships user_profile internships = rank_internships user_profile internships := by
  intro p l
  have hperm : (rank_internships p l).Perm (l.map (rankedEntry p)) := by
    rw [rank_internships_eq]
    exact sortOn_perm _ _
  refine ⟨?_, ?_, ?_, rfl⟩
  · have hmm : (l.map (rankedEntry p)).map (·.internship) = l := by
      rw [List.map_map]
      have hco : ((fun x : RankedEntry => x.internship) ∘ rankedEntry p) =
          fun i => i := rfl
      rw [hco]
      simp
    have h2 := hperm.map (·.internship)
    rw [hmm] at h2
    exact h2
  · rw [rank_internships_eq]
    have := sortOn_pairwise (fun e : RankedEntry => -(e.match_percentage))
      (l.map (rankedEntry p))
    exact this.imp (by omega)
  · intro v
    rw [rank_internships_eq]
    have hstab := sortOn_filter_key (fun e : RankedEntry => -(e.match_percentage))
      (l.map (rankedEntry p)) (-v)
    have hcong : ∀ ll : List RankedEntry,
        ll.filter (fun e => decide (-(e.match_percentage) = -v)) =
          ll.filter (fun e => decide (e.match_percentage = v)) := by
      intro ll
      refine List.filter_congr ?_
      intro e _
      simp [neg_inj]
    rw [hcong, hcong] at hstab
    rw [hstab, filter_of_map]
    have hc2 : (l.filter fun i => decide ((rankedEntry p i).match_percentage = v)) =
        l.filter (fun i =>
          decide ((calculate_skill_match p.skills i.required_skills
            i.preferred_skills).match_percentage = v)) := by
      refine List.filter_congr ?_
      intro i _
      rw [rankedEntry_pct]
    rw [hc2, List.map_map]
    have hco : ((fun x : RankedEntry => x.internship) ∘ rankedEntry p) =
        fun i => i := rfl
    rw [hco]
    simp

/-- Witness for C8 on a concrete profile and two listings. -/
theorem rank_internships_shape_witness :
    ((rank_internships ⟨["Python"]⟩ [demoListing]).map (·.internship)).Perm [demoListing] ∧
    (rank_internships ⟨["Python"]⟩ [demoListing]).Pairwise
      (fun a b => b.match_percentage ≤ a.match_percentage) ∧
    (∀ v : ℤ,
      ((rank_internships ⟨["Python"]⟩ [demoListing]).filter
          (fun e => decide (e.match_percentage = v))).map (·.internship) =
        [demoListing].filter (fun i =>
          decide ((calculate_skill_match (StudentProfile.mk ["Python"]).skills
            i.required_skills i.preferred_skills).match_percentage = v))) ∧
    rank_internships ⟨["Python"]⟩ [demoListing] = rank_internships ⟨["Python"]⟩ [demoListing] :=
  rank_internships_shape ⟨["Python"]⟩ [demoListing]

/-! ## Helper lemmas on calculate_skill_match -/

theorem calc_match_empty_required (us ps : List String) :
    calculate_skill_match us [] ps = ⟨100, [], []⟩ := rfl

theorem calc_match_empty_user (rs ps : List String) (hrs : rs ≠ []) :
    calculate_skill_match [] rs ps = ⟨0, [], rs⟩ := by
  unfold calculate_skill_match
  rw [if_neg hrs]
  rfl

theorem calc_match_matching_eq (us rs ps : List String) (hrs : rs ≠ []) (hus : us ≠ []) :
    (calculate_skill_match us rs ps).matching_skills =
      (rs ++ ps).filter fun s =>
        (((rs.map normalizeSkill).dedup.filter fun s2 =>
            ((us.map normalizeSkill).dedup).contains s2) ++
          ((ps.map normalizeSkill).dedup.filter fun s2 =>
            ((us.map normalizeSkill).dedup).contains s2)).contains (normalizeSkill s) := by
  unfold calculate_skill_match
  rw [if_neg hrs, if_neg hus]

theorem calc_match_missing_eq (us rs ps : List String) (hrs : rs ≠ []) (hus : us ≠ []) :
    (calculate_skill_match us rs ps).missing_skills =
      rs.filter fun s =>
        ((rs.map normalizeSkill).dedup.filter fun s2 =>
          ! ((us.map normalizeSkill).dedup).contains s2).contains (normalizeSkill s) := by
  unfold calculate_skill_match
  rw [if_neg hrs, if_neg hus]

theorem calc_match_pct_eq (us rs ps : List String) (hrs : rs ≠ []) (hus : us ≠ []) :
    (calculate_skill_match us rs ps).match_percentage =
      max 0 (min 100 (codeMatchPctN (matchedRequiredCard us rs) (requiredCard rs)
        (matchedPreferredCard us ps) (preferredCard ps))) := by
  have hL : (calculate_skill_match us rs ps).match_percentage =
      max 0 (min 100 (if (ps.map normalizeSkill).dedup = []
        then dtrunc (flIntMul (flDiv (matchedRequiredCard us rs) (requiredCard rs)) 100)
        else dtrunc (flAdd
          (flMul (flIntMul (flDiv (matchedRequiredCard us rs) (requiredCard rs)) 100) c07)
          (flMul (flIntMul (flDiv (matchedPreferredCard us ps) (preferredCard ps)) 100)
            c03)))) := by
    unfold calculate_skill_match matchedRequiredCard requiredCard matchedPreferredCard
      preferredCard
    rw [if_neg hrs, if_neg hus]
  rw [hL]
  unfold codeMatchPctN
  by_cases hp : (ps.map normalizeSkill).dedup = []
  · have h0 : preferredCard ps = 0 := by rw [preferredCard, hp]; rfl
    rw [if_pos hp, h0]
    simp
  · have h0 : preferredCard ps ≠ 0 := by
      rw [preferredCard]
      simpa using hp
    rw [if_neg hp, if_pos h0]

theorem contains_mem_iff (l : List String) (a : String) : l.contains a = true ↔ a ∈ l := by
  simp

theorem mem_map_filter_norm (l : List String) (P : String → Bool) (x : String) :
    x ∈ (l.filter fun s => P (normalizeSkill s)).map normalizeSkill ↔
      x ∈ l.map normalizeSkill ∧ P x = true := by
  constructor
  · intro hx
    obtain ⟨s, hs, rfl⟩ := List.mem_map.mp hx
    obtain ⟨hsl, hP⟩ := List.mem_filter.mp hs
    exact ⟨List.mem_map.mpr ⟨s, hsl, rfl⟩, hP⟩
  · rintro ⟨hx, hP⟩
    obtain ⟨s, hs, rfl⟩ := List.mem_map.mp hx
    exact List.mem_map.mpr ⟨s, List.mem_filter.mpr ⟨hs, hP⟩, rfl⟩

/-! ## Claim C1 -/

/-- C1 counterexample: with user = [react], required = [python],
preferred = [react], the matching list is [react] and the missing list
is [python]; react is in the union of the two but not among the
required skills, so matching ∪ missing ≠ required (after
normalization). -/
theorem skill_partition_cex :
    (calculate_skill_match ["react"] ["python"] ["react"]).matching_skills = ["react"] ∧
    (calculate_skill_match ["react"] ["python"] ["react"]).missing_skills = ["python"] ∧
    "react" ∈ ((calculate_skill_match ["react"] ["python"] ["react"]).matching_skills.map
      normalizeSkill) ∧
    "react" ∉ (["python"].map normalizeSkill) := by
  refine ⟨by decide, by decide, by decide, by decide⟩

/-- C1 (amended): matching and missing never overlap, and their union
after normalization is the required set extended by the matched
preferred skills — `required ∪ (user ∩ preferred)`; when the required
list is empty both lists are empty.  In particular, when no preferred
skills are supplied the union is exactly the required set, as the
original claim states. -/
theorem skill_partition_amended :
    ∀ user_skills required_skills preferred_skills : List String,
      (∀ x, ¬ (x ∈ ((calculate_skill_match user_skills required_skills
            preferred_skills).matching_skills.map normalizeSkill) ∧
          x ∈ ((calculate_skill_match user_skills required_skills
            preferred_skills).missing_skills.map normalizeSkill))) ∧
      (required_skills ≠ [] →
        ∀ x, (x ∈ ((calculate_skill_match user_skills required_skills
              preferred_skills).matching_skills.map normalizeSkill) ∨
            x ∈ ((calculate_skill_match user_skills required_skills
              preferred_skills).missing_skills.map normalizeSkill)) ↔
          (x ∈ required_skills.map normalizeSkill ∨
            (x ∈ user_skills.map normalizeSkill ∧
              x ∈ preferred_skills.map normalizeSkill))) ∧
      (required_skills = [] →
        (calculate_skill_match user_skills required_skills
          preferred_skills).matching_skills = [] ∧
        (calculate_skill_match user_skills required_skills
          preferred_skills).missing_skills = []) := by
  intro us rs ps
  by_cases hrs : rs = []
  · subst hrs
    rw [calc_match_empty_required]
    refine ⟨by simp, by simp, fun _ => ⟨rfl, rfl⟩⟩
  · by_cases hus : us = []
    · subst hus
      rw [calc_match_empty_user rs ps hrs]
      refine ⟨by simp, ?_, fun h => absurd h hrs⟩
      intro _ x
      simp
    · have hA : ∀ x : String,
          ((((rs.map normalizeSkill).dedup.filter fun s2 =>
              ((us.map normalizeSkill).dedup).contains s2) ++
            ((ps.map normalizeSkill).dedup.filter fun s2 =>
              ((us.map normalizeSkill).dedup).contains s2)).contains x = true) ↔
          ((x ∈ rs.map normalizeSkill ∨ x ∈ ps.map normalizeSkill) ∧
            x ∈ us.map normalizeSkill) := by
        intro x
        simp only [contains_mem_iff, List.mem_append, List.mem_filter, List.mem_dedup]
        tauto
      have hC : ∀ x : String,
          (((rs.map normalizeSkill).dedup.filter fun s2 =>
            ! ((us.map normalizeSkill).dedup).contains s2).contains x = true) ↔
          (x ∈ rs.map normalizeSkill ∧ ¬ x ∈ us.map normalizeSkill) := by
        intro x
        simp only [contains_mem_iff, List.mem_filter, List.mem_dedup, Bool.not_eq_true',
          ← Bool.not_eq_true]
      refine ⟨?_, ?_, fun h => absurd h hrs⟩
      · intro x ⟨hx1, hx2⟩
        rw [calc_match_matching_eq us rs ps hrs hus] at hx1
        rw [calc_match_missing_eq us rs ps hrs hus] at hx2
        have h1 := (mem_map_filter_norm _ _ x).mp hx1
        have h2 := (mem_map_filter_norm _ _ x).mp hx2
        have := (hA x).mp h1.2
        have := (hC x).mp h2.2
        tauto
      · intro _ x
        rw [calc_match_matching_eq us rs ps hrs hus,
          calc_match_missing_eq us rs ps hrs hus]
        rw [mem_map_filter_norm, mem_map_filter_norm]
        rw [hA x, hC x]
        simp only [List.map_append, List.mem_append]
        tauto

/-- Witness for C1 (amended) at user = [react], required = [python],
preferred = [react]. -/
theorem skill_partition_amended_witness :
    (∀ x, ¬ (x ∈ ((calculate_skill_match ["react"] ["python"]
          ["react"]).matching_skills.map normalizeSkill) ∧
        x ∈ ((calculate_skill_match ["react"] ["python"]
          ["react"]).missing_skills.map normalizeSkill))) ∧
    (∀ x, (x ∈ ((calculate_skill_match ["react"] ["python"]
          ["react"]).matching_skills.map normalizeSkill) ∨
        x ∈ ((calculate_skill_match ["react"] ["python"]
          ["react"]).missing_skills.map normalizeSkill)) ↔
      (x ∈ ["python"].map normalizeSkill ∨
        (x ∈ ["react"].map normalizeSkill ∧ x ∈ ["react"].map normalizeSkill))) :=
  ⟨(skill_partition_amended ["react"] ["python"] ["react"]).1,
   (skill_partition_amended ["react"] ["python"] ["react"]).2.1 (by decide)⟩

/-! ## Claim C4 -/

/-- C4 counterexample: with user = [a], required = [b], preferred =
[a, c, d] the code returns 9, while the spec's exact formula
`floor(100·(0/1)·0.7 + 100·(1/3)·0.3)` equals 10 — the float
evaluation `(1/3*100)*0.3` falls just below 10 and `int(...)`
truncates it to 9. -/
theorem match_pct_floor_cex :
    (calculate_skill_match ["a"] ["b"] ["a", "c", "d"]).match_percentage = 9 ∧
    specMatchPct ["a"] ["b"] ["a", "c", "d"] = 10 := by
  constructor
  · decide
  · show specMatchPctN (matchedRequiredCard ["a"] ["b"]) (requiredCard ["b"])
      (matchedPreferredCard ["a"] ["a", "c", "d"]) (preferredCard ["a", "c", "d"]) = 10
    have h1 : matchedRequiredCard ["a"] ["b"] = 0 := by decide
    have h2 : requiredCard ["b"] = 1 := by decide
    have h3 : matchedPreferredCard ["a"] ["a", "c", "d"] = 1 := by decide
    have h4 : preferredCard ["a", "c", "d"] = 3 := by decide
    rw [h1, h2, h3, h4]
    unfold specMatchPctN
    rw [if_pos (by norm_num)]
    norm_num

/-- C4 (amended): `calculate_skill_match` computes the weighted
percentage by evaluating the spec's formula in IEEE-754 binary64
arithmetic and truncating toward zero (which can land one below the
exact floor), then clamps to [0, 100]; empty required skills give 100
with empty lists, empty user skills give 0 with all required skills
missing; the result always lies in [0, 100]; and the sampled example
(user [Python, React, PostgreSQL], required [Python, Django],
preferred [React, PostgreSQL]) still yields 65. -/
theorem match_pct_float_formula :
    (∀ us rs ps : List String,
      (rs ≠ [] → us ≠ [] →
        (calculate_skill_match us rs ps).match_percentage =
          max 0 (min 100 (codeMatchPctN (matchedRequiredCard us rs) (requiredCard rs)
            (matchedPreferredCard us ps) (preferredCard ps)))) ∧
      (rs = [] → calculate_skill_match us rs ps = ⟨100, [], []⟩) ∧
      (rs ≠ [] → us = [] → calculate_skill_match us rs ps = ⟨0, [], rs⟩) ∧
      0 ≤ (calculate_skill_match us rs ps).match_percentage ∧
      (calculate_skill_match us rs ps).match_percentage ≤ 100) ∧
    (calculate_skill_match ["Python", "React", "PostgreSQL"] ["Python", "Django"]
      ["React", "PostgreSQL"]).match_percentage = 65 := by
  constructor
  · intro us rs ps
    have hbounds : 0 ≤ (calculate_skill_match us rs ps).match_percentage ∧
        (calculate_skill_match us rs ps).match_percentage ≤ 100 := by
      by_cases hrs : rs = []
      · subst hrs
        rw [calc_match_empty_required]
        exact ⟨by norm_num, by norm_num⟩
      · by_cases hus : us = []
        · subst hus
          rw [calc_match_empty_user rs ps hrs]
          exact ⟨by norm_num, by norm_num⟩
        · rw [calc_match_pct_eq us rs ps hrs hus]
          omega
    refine ⟨fun hrs hus => calc_match_pct_eq us rs ps hrs hus, ?_, ?_, hbounds.1, hbounds.2⟩
    · intro h
      subst h
      exact calc_match_empty_required us ps
    · intro hrs h
      subst h
      exact calc_match_empty_user rs ps hrs
  · decide

/-- Witness for C4 (amended) on the spec's sampled example. -/
theorem match_pct_float_formula_witness :
    (calculate_skill_match ["Python", "React", "PostgreSQL"] ["Python", "Django"]
        ["React", "PostgreSQL"]).match_percentage =
      max 0 (min 100 (codeMatchPctN
        (matchedRequiredCard ["Python", "React", "PostgreSQL"] ["Python", "Django"])
        (requiredCard ["Python", "Django"])
        (matchedPreferredCard ["Python", "React", "PostgreSQL"] ["React", "PostgreSQL"])
        (preferredCard ["React", "PostgreSQL"]))) ∧
    calculate_skill_match ["Python"] [] [] = ⟨100, [], []⟩ ∧
    calculate_skill_match [] ["Python"] [] = ⟨0, [], ["Python"]⟩ :=
  ⟨(match_pct_float_formula.1 ["Python", "React", "PostgreSQL"] ["Python", "Django"]
      ["React", "PostgreSQL"]).1 (by decide) (by decide),
   (match_pct_float_formula.1 ["Python"] [] []).2.1 rfl,
   (match_pct_float_formula.1 [] ["Python"] []).2.2.1 (by decide) rfl⟩

/-! ## Claim C5 -/

theorem regFlags_types (i : InternshipListing) :
    ∀ f ∈ regFlags i, f.type = "registration_fee" := by
  unfold regFlags
  split <;> simp

theorem waFlags_types (i : InternshipListing) :
    ∀ f ∈ waFlags i, f.type = "whatsapp_only" := by
  unfold waFlags
  split <;> simp

theorem emailFlags_types (i : InternshipListing) :
    ∀ f ∈ emailFlags i, f.type = "non_official_email" := by
  unfold emailFlags
  split <;> simp

theorem vagueFlags_types (i : InternshipListing) :
    ∀ f ∈ vagueFlags i, f.type = "vague_description" := by
  unfold vagueFlags
  split
  · simp
  · split <;> simp

theorem regFlags_no_stipend (i : InternshipListing) :
    ((regFlags i).any fun f => f.type == "unrealistic_stipend") = false := by
  unfold regFlags
  split <;> decide

theorem waFlags_no_stipend (i : InternshipListing) :
    ((waFlags i).any fun f => f.type == "unrealistic_stipend") = false := by
  unfold waFlags
  split <;> decide

theorem emailFlags_no_stipend (i : InternshipListing) :
    ((emailFlags i).any fun f => f.type == "unrealistic_stipend") = false := by
  unfold emailFlags
  split <;> decide

theorem vagueFlags_no_stipend (i : InternshipListing) :
    ((vagueFlags i).any fun f => f.type == "unrealistic_stipend") = false := by
  unfold vagueFlags
  split
  · decide
  · split <;> decide

theorem stipendFlags_any_iff (i : InternshipListing) :
    ((stipendFlags i).any fun f => f.type == "unrealistic_stipend") = true ↔
      (∃ v, stipendValue (lowerStr i.stipend) = some v ∧ fpGtNat v 50000 = true) := by
  unfold stipendFlags
  cases hsv : stipendValue (lowerStr i.stipend) with
  | none => simp
  | some v =>
    dsimp only
    by_cases hgt : fpGtNat v 50000 = true
    · rw [if_pos hgt]
      constructor
      · intro _
        exact ⟨v, rfl, hgt⟩
      · intro _
        simp
    · rw [if_neg hgt]
      simp only [List.any_nil]
      constructor
      · intro h
        exact absurd h (by decide)
      · rintro ⟨v2, hv2, hgt2⟩
        obtain rfl : v = v2 := by injection hv2
        exact absurd hgt2 hgt

theorem stipendFlags_severity (i : InternshipListing) :
    ∀ f ∈ stipendFlags i, f.severity = .MEDIUM := by
  unfold stipendFlags
  cases stipendValue (lowerStr i.stipend) with
  | none => simp
  | some v =>
    dsimp only
    split
    · intro f hf
      rcases List.mem_singleton.mp hf with rfl
      rfl
    · simp

/-- The concrete listing of the C5 counterexample: a stipend of "60 per
week".  The extracted number is 60 and no `k` trails it, but the letter
`k` of "week" makes the code multiply by 1000 and flag the stipend. -/
def cexListing : InternshipListing :=
  { id := "cex-1"
    title := "Data Intern"
    company := "Acme"
    company_domain := none
    platform := none
    stipend := "60 per week"
    required_skills := []
    preferred_skills := []
    responsibilities := ["Assist the data team with dashboard maintenance and reporting"] }

/-- C5 counterexample: for the listing with stipend "60 per week" the
code emits the `unrealistic_stipend` flag, yet under the claim's
reading (a `k` trailing the extracted number multiplies by 1000) the
stipend value is exactly 60, which does not exceed 50000 — so the
claimed "if and only if" fails on this listing. -/
theorem stipend_flag_cex :
    ((detect_red_flags cexListing).any fun f => f.type == "unrealistic_stipend") = true ∧
    specStipendValue (lowerStr cexListing.stipend) = some (flDiv 60 1) ∧
    fpGtNat (flDiv 60 1) 50000 = false := by
  refine ⟨by decide, by decide, by decide⟩

/-- C5 (amended): `detect_red_flags` regex-extracts the first numeric
value of the stipend string (optionally comma-grouped, optional
currency sign, optional fraction part) and multiplies it by 1000 when
the letter `k` occurs anywhere in the stipend string (not only trailing
the number); it emits a flag of type `unrealistic_stipend` if and only
if a number was extracted and the resulting binary64 value exceeds
50000, and every such flag has MEDIUM severity. -/
theorem stipend_flag_iff :
    ∀ internship : InternshipListing,
      (((detect_red_flags internship).any fun f => f.type == "unrealistic_stipend") = true ↔
        (∃ v, stipendValue (lowerStr internship.stipend) = some v ∧
          fpGtNat v 50000 = true)) ∧
      (∀ f ∈ detect_red_flags internship, f.type = "unrealistic_stipend" →
        f.severity = .MEDIUM) := by
  intro i
  constructor
  · show ((regFlags i ++ waFlags i ++ emailFlags i ++ stipendFlags i ++
      vagueFlags i).any fun f => f.type == "unrealistic_stipend") = true ↔ _
    simp only [List.any_append]
    rw [regFlags_no_stipend, waFlags_no_stipend, emailFlags_no_stipend,
      vagueFlags_no_stipend]
    simp only [Bool.false_or, Bool.or_false]
    exact stipendFlags_any_iff i
  · intro f hf htype
    have hmem : f ∈ regFlags i ++ waFlags i ++ emailFlags i ++ stipendFlags i ++
        vagueFlags i := hf
    rcases List.mem_append.mp hmem with h4 | hv
    · rcases List.mem_append.mp h4 with h3 | hs
      · rcases List.mem_append.mp h3 with h2 | he
        · rcases List.mem_append.mp h2 with hr | hw
          · exact absurd (htype ▸ regFlags_types i f hr) (by decide)
          · exact absurd (htype ▸ waFlags_types i f hw) (by decide)
        · exact absurd (htype ▸ emailFlags_types i f he) (by decide)
      · exact stipendFlags_severity i f hs
    · exact absurd (htype ▸ vagueFlags_types i f hv) (by decide)

/-- Witness for C5 (amended) at a concrete listing whose stipend
"₹15,000/month" parses to 15000 and is not flagged. -/
theorem stipend_flag_iff_witness :
    (((detect_red_flags demoListing).any fun f => f.type == "unrealistic_stipend") = true ↔
      (∃ v, stipendValue (lowerStr demoListing.stipend) = some v ∧
        fpGtNat v 50000 = true)) ∧
    (∀ f ∈ detect_red_flags demoListing, f.type = "unrealistic_stipend" →
      f.severity = .MEDIUM) :=
  stipend_flag_iff demoListing

/-- Witness for C6 at the out-of-range semesters 0 and 9 named by the
claim. -/
theorem calendar_validation_iff_witness :
    (isOkB (get_calendar_for_semester 0 6) = true ↔
      (1 ≤ (0 : ℤ) ∧ (0 : ℤ) ≤ 8 ∧ 1 ≤ (6 : ℤ) ∧ (6 : ℤ) ≤ 12)) ∧
    (isOkB (get_calendar_for_semester 9 6) = true ↔
      (1 ≤ (9 : ℤ) ∧ (9 : ℤ) ≤ 8 ∧ 1 ≤ (6 : ℤ) ∧ (6 : ℤ) ≤ 12)) :=
  ⟨calendar_validation_iff 0 6, calendar_validation_iff 9 6⟩
